import Mathlib

/-!
Verification of the monitoring engine of Ping-Tray-2dev.

The program (src/Ping-Tray-2dev.py) periodically pings two fixed hosts,
keeps bounded rolling histories of the observations in `collections.deque`
ring buffers, records status-change events, and notifies a tray icon on
transitions.  This file embeds the engine — the configuration constants of
`NetworkMonitor.__init__`, the retry loop of `ping`, and the per-tick state
update of `update_status` — as executable Lean definitions and proves the
specification's claims about them.
-/

set_option maxRecDepth 8000

namespace PingTray

/-! ## Configuration (`NetworkMonitor.__init__`, lines 29-50) -/

/-- `self.ip1 = "192.168.0.1"` -/
def ip1 : String := "192.168.0.1"

/-- `self.ip2 = "192.168.0.2"` -/
def ip2 : String := "192.168.0.2"

/-- `self.ping_timeout = 1` (seconds) -/
def ping_timeout : Nat := 1

/-- `self.ping_retries = 2` -/
def ping_retries : Nat := 2

/-- `self.check_interval = 5` (seconds) -/
def check_interval : Nat := 5

/-- `max_history = int(24 * 3600 / self.check_interval)`; the division is
exact, so the `int` truncation equals the quotient. -/
def max_history : Nat := 24 * 3600 / check_interval

/-- capacity of the `status_changes` deque (line 49). -/
def status_changes_maxlen : Nat := 100

/-! ## Ring buffers

Python's `collections.deque(maxlen=m)` discards from the opposite end when an
`append` overflows.  A deque holding `xs` (oldest first) becomes, after
`append x`, the last `m` elements of `xs ++ [x]`. -/

/-- `deque(maxlen := m)` append: keep the newest `m` elements. -/
def dequeAppend (m : Nat) (xs : List α) (x : α) : List α :=
  let ys := xs ++ [x]
  ys.drop (ys.length - m)

theorem dequeAppend_length (m : Nat) (xs : List α) (x : α) :
    (dequeAppend m xs x).length = min (xs.length + 1) m := by
  simp only [dequeAppend, List.length_drop, List.length_append, List.length_singleton]
  omega

theorem dequeAppend_eq_of_pos (m : Nat) (xs : List α) (x : α) (hm : 0 < m) :
    dequeAppend m xs x = xs.drop (xs.length + 1 - m) ++ [x] := by
  simp only [dequeAppend, List.length_append, List.length_singleton,
    List.drop_append_eq_append_drop]
  have h : xs.length + 1 - m - xs.length = 0 := by omega
  rw [h]
  rfl

theorem dequeAppend_suffix (m : Nat) (xs : List α) (x : α) :
    dequeAppend m xs x <:+ xs ++ [x] :=
  List.drop_suffix _ _

/-- FIFO eviction: at capacity, appending drops exactly the oldest entry. -/
theorem dequeAppend_full (m : Nat) (xs : List α) (x : α) (hm : 0 < m)
    (hfull : xs.length = m) : dequeAppend m xs x = xs.tail ++ [x] := by
  rw [dequeAppend_eq_of_pos m xs x hm]
  have h : xs.length + 1 - m = 1 := by omega
  rw [h, List.drop_one]

theorem dequeAppend_getLast (m : Nat) (xs : List α) (x : α) (hm : 0 < m) :
    (dequeAppend m xs x).getLast? = some x := by
  rw [dequeAppend_eq_of_pos m xs x hm]
  simp

/-! ## The prober (`ping`, lines 67-105)

One probe attempt ends in one of five ways: the subprocess exits 0
(`returncode == 0`, reachable), exits nonzero, or raises
`subprocess.TimeoutExpired`, `subprocess.SubprocessError`, or any other
`Exception`.  The retry loop runs `self.ping_retries` iterations: a zero exit
returns `True` at once; every other outcome falls through to
`time.sleep(0.5)` (line 103) and the next iteration; after the loop the
function returns `False`. -/

inductive AttemptOutcome where
  | success
  | nonzeroExit
  | timeoutExpired
  | subprocessError
  | otherException
deriving DecidableEq

/-- What a call to `ping` did: its boolean result, how many probe attempts it
made, and how many `time.sleep(0.5)` backoff waits it performed. -/
structure PingTrace where
  result : Bool
  attempts : Nat
  sleeps : Nat
deriving DecidableEq

/-- The body of the `for attempt in range(self.ping_retries)` loop, from the
attempt numbered `a` with `r` iterations left. -/
def pingLoop (outcomes : Nat → AttemptOutcome) (a : Nat) : Nat → PingTrace
  | 0 => ⟨false, 0, 0⟩
  | r + 1 =>
    match outcomes a with
    | .success => ⟨true, 1, 0⟩
    | _ =>
      let t := pingLoop outcomes (a + 1) r
      ⟨t.result, t.attempts + 1, t.sleeps + 1⟩

/-- `ping` for a host whose attempt number `k` ends in `outcomes k`. -/
def ping (retries : Nat) (outcomes : Nat → AttemptOutcome) : PingTrace :=
  pingLoop outcomes 0 retries

/-- One attempt in an exception-transparent semantics: outcomes that raise a
Python exception are `.error`, normal completions are `.ok` with the
truth of `returncode == 0`. -/
def runAttempt : AttemptOutcome → Except AttemptOutcome Bool
  | .success => .ok true
  | .nonzeroExit => .ok false
  | e => .error e

/-- The `except` clauses at lines 95-101, in order: `subprocess.TimeoutExpired`,
`subprocess.SubprocessError`, `Exception`.  `true` iff the raised class is
caught by one of them. -/
def handlerCatches : AttemptOutcome → Bool
  | .timeoutExpired => true
  | .subprocessError => true
  | .otherException => true
  | _ => false

/-- The retry loop with exceptions made explicit: an uncaught exception
propagates as `.error`; a caught one falls through to the backoff sleep and
the next iteration, exactly as in `pingLoop`. -/
def pingLoopExc (outcomes : Nat → AttemptOutcome) (a : Nat) :
    Nat → Except AttemptOutcome PingTrace
  | 0 => .ok ⟨false, 0, 0⟩
  | r + 1 =>
    match runAttempt (outcomes a) with
    | .ok true => .ok ⟨true, 1, 0⟩
    | .ok false =>
      (pingLoopExc outcomes (a + 1) r).map fun t => ⟨t.result, t.attempts + 1, t.sleeps + 1⟩
    | .error e =>
      if handlerCatches e then
        (pingLoopExc outcomes (a + 1) r).map fun t => ⟨t.result, t.attempts + 1, t.sleeps + 1⟩
      else .error e

/-- `ping` in the exception-transparent semantics. -/
def pingExc (retries : Nat) (outcomes : Nat → AttemptOutcome) :
    Except AttemptOutcome PingTrace :=
  pingLoopExc outcomes 0 retries

/-! ## Monitor state and `update_status` (lines 37-50, 107-143)

A tick of `update_status` is driven by three inputs the embedding makes
explicit: the wall-clock value `datetime.now()` returned at line 114
(modelled as a `Nat`), and the two boolean results of `self.ping(...)` at
lines 111-112.  Whether `self.icon` is set (it is `None` until `run()`
creates the tray icon) is a fourth input, since lines 134-143 are guarded by
`if self.icon:`. -/

/-- One entry of `history['status_changes']` (lines 127-131): the dict
`{'time': …, 'device1': {'old','new'}, 'device2': {'old','new'}}`. -/
structure ChangeRecord where
  time : Nat
  device1_old : Bool
  device1_new : Bool
  device2_old : Bool
  device2_new : Bool
deriving DecidableEq

/-- The mutable state of `NetworkMonitor` that `update_status` touches. -/
structure MonitorState where
  device1_status : Bool
  device2_status : Bool
  timestamps : List Nat
  device1 : List Nat
  device2 : List Nat
  status_changes : List ChangeRecord
deriving DecidableEq

/-- The state after `__init__`: both statuses `False`, all deques empty. -/
def initialState : MonitorState :=
  { device1_status := false
    device2_status := false
    timestamps := []
    device1 := []
    device2 := []
    status_changes := [] }

/-- The environment of one tick: the clock value and the two ping results,
plus whether `self.icon` has been created. -/
structure TickInput where
  time : Nat
  ping1 : Bool
  ping2 : Bool
  icon : Bool
deriving DecidableEq

/-- `"Online" if status else "Offline"` (lines 303-304). -/
def statusWord (b : Bool) : String := if b then "Online" else "Offline"

/-- `get_status_text` (lines 301-305), as a function of the two current
statuses it reads from `self`. -/
def get_status_text (d1 d2 : Bool) : String :=
  "Device 1 (" ++ ip1 ++ "): " ++ statusWord d1 ++ "\n" ++
    "Device 2 (" ++ ip2 ++ "): " ++ statusWord d2

/-- `update_status` (lines 107-143): returns the new state and the
notification `(title, message)` emitted at lines 140-143, if any. -/
def update_status (s : MonitorState) (inp : TickInput) :
    MonitorState × Option (String × String) :=
  let old_status := (s.device1_status, s.device2_status)
  let device1_status := inp.ping1
  let device2_status := inp.ping2
  let timestamps := dequeAppend max_history s.timestamps inp.time
  let device1 := dequeAppend max_history s.device1 (if device1_status then 1 else 0)
  let device2 := dequeAppend max_history s.device2 (if device2_status then 1 else 0)
  let status_changes :=
    if (device1_status, device2_status) ≠ old_status then
      dequeAppend status_changes_maxlen s.status_changes
        { time := inp.time
          device1_old := old_status.1
          device1_new := device1_status
          device2_old := old_status.2
          device2_new := device2_status }
    else s.status_changes
  let notification :=
    if inp.icon then
      if (device1_status, device2_status) ≠ old_status then
        some ("Network Status Change", get_status_text device1_status device2_status)
      else none
    else none
  (⟨device1_status, device2_status, timestamps, device1, device2, status_changes⟩,
    notification)

/-- The state reached from `s` by a sequence of ticks (the monitor loop at
lines 297-299 calls `update_status` once per iteration). -/
def runFrom (s : MonitorState) : List TickInput → MonitorState
  | [] => s
  | i :: rest => runFrom (update_status s i).1 rest

/-- The state reached from `initialState` by a sequence of ticks. -/
def runTicks (inps : List TickInput) : MonitorState :=
  runFrom initialState inps

/-- The state after the first `n` ticks of `inps`. -/
def stateAt (inps : List TickInput) (n : Nat) : MonitorState :=
  runFrom initialState (inps.take n)

/-- The composite status tuple after the first `n` ticks;
`compositeAt inps 0` is the initial default `(false, false)`. -/
def compositeAt (inps : List TickInput) (n : Nat) : Bool × Bool :=
  ((stateAt inps n).device1_status, (stateAt inps n).device2_status)

/-- The filter `show_status_window` applies when rendering a change record
(lines 264-272): device `i` is displayed iff its `old` and `new` differ. -/
def displayedInChange (r : ChangeRecord) : Bool × Bool :=
  (decide (r.device1_old ≠ r.device1_new), decide (r.device2_old ≠ r.device2_new))

/-! ## Structural lemmas -/

theorem update_status_fst (s : MonitorState) (inp : TickInput) :
    (update_status s inp).1 =
      ⟨inp.ping1, inp.ping2,
        dequeAppend max_history s.timestamps inp.time,
        dequeAppend max_history s.device1 (if inp.ping1 then 1 else 0),
        dequeAppend max_history s.device2 (if inp.ping2 then 1 else 0),
        if (inp.ping1, inp.ping2) ≠ (s.device1_status, s.device2_status) then
          dequeAppend status_changes_maxlen s.status_changes
            ⟨inp.time, s.device1_status, inp.ping1, s.device2_status, inp.ping2⟩
        else s.status_changes⟩ := rfl

theorem update_status_timestamps (s : MonitorState) (inp : TickInput) :
    (update_status s inp).1.timestamps = dequeAppend max_history s.timestamps inp.time := by
  simp only [update_status]

theorem update_status_device1 (s : MonitorState) (inp : TickInput) :
    (update_status s inp).1.device1 =
      dequeAppend max_history s.device1 (if inp.ping1 then 1 else 0) := by
  simp only [update_status]

theorem update_status_device2 (s : MonitorState) (inp : TickInput) :
    (update_status s inp).1.device2 =
      dequeAppend max_history s.device2 (if inp.ping2 then 1 else 0) := by
  simp only [update_status]

theorem update_status_statuses (s : MonitorState) (inp : TickInput) :
    (update_status s inp).1.device1_status = inp.ping1 ∧
      (update_status s inp).1.device2_status = inp.ping2 := by
  simp only [update_status]
  exact ⟨trivial, trivial⟩

theorem update_status_status_changes (s : MonitorState) (inp : TickInput) :
    (update_status s inp).1.status_changes =
      if (inp.ping1, inp.ping2) ≠ (s.device1_status, s.device2_status) then
        dequeAppend status_changes_maxlen s.status_changes
          ⟨inp.time, s.device1_status, inp.ping1, s.device2_status, inp.ping2⟩
      else s.status_changes := by
  simp only [update_status]

theorem update_status_snd (s : MonitorState) (inp : TickInput) :
    (update_status s inp).2 =
      if inp.icon then
        if (inp.ping1, inp.ping2) ≠ (s.device1_status, s.device2_status) then
          some ("Network Status Change", get_status_text inp.ping1 inp.ping2)
        else none
      else none := by
  simp only [update_status]

theorem runFrom_take_succ (s : MonitorState) (inps : List TickInput) (n : Nat)
    (i : TickInput) (h : inps[n]? = some i) :
    runFrom s (inps.take (n + 1)) = (update_status (runFrom s (inps.take n)) i).1 := by
  induction inps generalizing s n with
  | nil => simp at h
  | cons j rest ih =>
    cases n with
    | zero =>
      simp only [List.getElem?_cons_zero, Option.some.injEq] at h
      subst h
      simp [runFrom]
    | succ k =>
      simp only [List.getElem?_cons_succ] at h
      simp only [List.take_succ_cons, runFrom]
      exact ih _ k h

theorem stateAt_succ (inps : List TickInput) (n : Nat) (i : TickInput)
    (h : inps[n]? = some i) :
    stateAt inps (n + 1) = (update_status (stateAt inps n) i).1 :=
  runFrom_take_succ initialState inps n i h

theorem suffix_append_same {l₁ l₂ l₃ : List α} (h : l₁ <:+ l₂) :
    l₁ ++ l₃ <:+ l₂ ++ l₃ := by
  obtain ⟨t, rfl⟩ := h
  exact ⟨t, (List.append_assoc t l₁ l₃).symm⟩

theorem runFrom_timestamps_suffix (inps : List TickInput) (s : MonitorState) :
    (runFrom s inps).timestamps <:+ s.timestamps ++ inps.map TickInput.time := by
  induction inps generalizing s with
  | nil => simp [runFrom]
  | cons i rest ih =>
    have h1 := ih (update_status s i).1
    rw [update_status_timestamps] at h1
    have h2 : dequeAppend max_history s.timestamps i.time ++ rest.map TickInput.time <:+
        (s.timestamps ++ [i.time]) ++ rest.map TickInput.time :=
      suffix_append_same (dequeAppend_suffix max_history s.timestamps i.time)
    have h3 := h1.trans h2
    simp only [List.append_assoc, List.singleton_append, List.map_cons] at h3 ⊢
    exact h3

theorem update_status_lengths (s : MonitorState) (inp : TickInput) :
    (update_status s inp).1.timestamps.length = min (s.timestamps.length + 1) max_history ∧
    (update_status s inp).1.device1.length = min (s.device1.length + 1) max_history ∧
    (update_status s inp).1.device2.length = min (s.device2.length + 1) max_history := by
  refine ⟨?_, ?_, ?_⟩
  · rw [update_status_timestamps, dequeAppend_length]
  · rw [update_status_device1, dequeAppend_length]
  · rw [update_status_device2, dequeAppend_length]

theorem runFrom_bounded (inps : List TickInput) (s : MonitorState)
    (h0 : s.timestamps.length ≤ max_history)
    (h1 : s.device1.length ≤ max_history)
    (h2 : s.device2.length ≤ max_history)
    (h3 : s.status_changes.length ≤ status_changes_maxlen) :
    (runFrom s inps).timestamps.length ≤ max_history ∧
    (runFrom s inps).device1.length ≤ max_history ∧
    (runFrom s inps).device2.length ≤ max_history ∧
    (runFrom s inps).status_changes.length ≤ status_changes_maxlen := by
  induction inps generalizing s with
  | nil => exact ⟨h0, h1, h2, h3⟩
  | cons i rest ih =>
    simp only [runFrom]
    obtain ⟨e0, e1, e2⟩ := update_status_lengths s i
    refine ih _ ?_ ?_ ?_ ?_
    · exact le_of_eq_of_le e0 (Nat.min_le_right _ _)
    · exact le_of_eq_of_le e1 (Nat.min_le_right _ _)
    · exact le_of_eq_of_le e2 (Nat.min_le_right _ _)
    · rw [update_status_status_changes]
      split
      · exact le_of_eq_of_le (dequeAppend_length _ _ _) (Nat.min_le_right _ _)
      · exact h3

theorem runFrom_lengths_eq (inps : List TickInput) (s : MonitorState)
    (h01 : s.timestamps.length = s.device1.length)
    (h12 : s.device1.length = s.device2.length) :
    (runFrom s inps).timestamps.length = (runFrom s inps).device1.length ∧
    (runFrom s inps).device1.length = (runFrom s inps).device2.length := by
  induction inps generalizing s with
  | nil => exact ⟨h01, h12⟩
  | cons i rest ih =>
    simp only [runFrom]
    obtain ⟨e0, e1, e2⟩ := update_status_lengths s i
    refine ih _ ?_ ?_
    · rw [e0, e1, h01]
    · rw [e1, e2, h12]

/-! ## The claims -/

/-- **C2**: each per-host history series has length at most
`max_history = 17280`, the status-change log has length at most 100, and an
append to a full buffer evicts exactly the oldest entry, keeping the length
constant. -/
theorem C2_bounded_history_fifo {α : Type} (inps : List TickInput)
    (m : Nat) (xs : List α) (x : α) (hm : 0 < m) (hfull : xs.length = m) :
    (max_history = 17280 ∧ status_changes_maxlen = 100) ∧
    ((runTicks inps).timestamps.length ≤ max_history ∧
     (runTicks inps).device1.length ≤ max_history ∧
     (runTicks inps).device2.length ≤ max_history ∧
     (runTicks inps).status_changes.length ≤ status_changes_maxlen) ∧
    (dequeAppend m xs x = xs.tail ++ [x] ∧ (dequeAppend m xs x).length = m) := by
  refine ⟨⟨rfl, rfl⟩, ?_, dequeAppend_full m xs x hm hfull, ?_⟩
  · exact runFrom_bounded inps initialState (by simp [initialState]) (by simp [initialState])
      (by simp [initialState]) (by simp [initialState])
  · rw [dequeAppend_length]; omega

/-- Witness for C2 at a concrete input: one tick, and a full two-element
buffer of capacity two. -/
theorem C2_bounded_history_fifo_witness :
    ((0 : Nat) < 2 ∧ ([10, 20] : List Nat).length = 2) ∧
    ((max_history = 17280 ∧ status_changes_maxlen = 100) ∧
     ((runTicks [⟨0, true, false, true⟩]).timestamps.length ≤ max_history ∧
      (runTicks [⟨0, true, false, true⟩]).device1.length ≤ max_history ∧
      (runTicks [⟨0, true, false, true⟩]).device2.length ≤ max_history ∧
      (runTicks [⟨0, true, false, true⟩]).status_changes.length ≤ status_changes_maxlen) ∧
     (dequeAppend 2 [10, 20] 30 = ([10, 20] : List Nat).tail ++ [30] ∧
      (dequeAppend 2 ([10, 20] : List Nat) 30).length = 2)) :=
  ⟨⟨by decide, by decide⟩,
    C2_bounded_history_fifo [⟨0, true, false, true⟩] 2 [10, 20] 30 (by decide) (by decide)⟩

/-- **C7**: every tick appends one sample to each of the three series
regardless of the probe outcomes, so the three series always have equal
lengths and can be zipped by index. -/
theorem C7_tick_always_appends (inps : List TickInput) (s : MonitorState) (i : TickInput) :
    ((runTicks inps).timestamps.length = (runTicks inps).device1.length ∧
     (runTicks inps).device1.length = (runTicks inps).device2.length) ∧
    ((update_status s i).1.timestamps.length = min (s.timestamps.length + 1) max_history ∧
     (update_status s i).1.device1.length = min (s.device1.length + 1) max_history ∧
     (update_status s i).1.device2.length = min (s.device2.length + 1) max_history) :=
  ⟨runFrom_lengths_eq inps initialState rfl rfl, update_status_lengths s i⟩

/-- **C8**: when each tick's clock value is later than the previous tick's,
the stored timestamp series is strictly increasing. -/
theorem C8_monotonic_timestamps (inps : List TickInput)
    (hmono : List.Chain' (· < ·) (inps.map TickInput.time)) :
    List.Pairwise (· < ·) (runTicks inps).timestamps := by
  have hp : List.Pairwise (· < ·) (inps.map TickInput.time) :=
    List.chain'_iff_pairwise.mp hmono
  have hs := runFrom_timestamps_suffix inps initialState
  simp only [initialState, List.nil_append] at hs
  exact hp.sublist hs.sublist

/-- Witness for C8: two ticks with clock values 3 and 7. -/
theorem C8_monotonic_timestamps_witness :
    List.Chain' (· < ·) (([⟨3, true, true, true⟩, ⟨7, false, true, true⟩] :
        List TickInput).map TickInput.time) ∧
    List.Pairwise (· < ·)
      (runTicks [⟨3, true, true, true⟩, ⟨7, false, true, true⟩]).timestamps :=
  ⟨by norm_num [List.chain'_cons], C8_monotonic_timestamps _ (by norm_num [List.chain'_cons])⟩

/-- **C10**: after a tick, the current-status booleans agree with the last
elements of the history series, and the last stored timestamp is the tick's
clock value. -/
theorem C10_current_status_matches_tail (s : MonitorState) (inp : TickInput) :
    ((update_status s inp).1.device1_status = true ↔
      (update_status s inp).1.device1.getLast? = some 1) ∧
    ((update_status s inp).1.device2_status = true ↔
      (update_status s inp).1.device2.getLast? = some 1) ∧
    (update_status s inp).1.timestamps.getLast? = some inp.time := by
  have hpos : 0 < max_history := by decide
  obtain ⟨e1, e2⟩ := update_status_statuses s inp
  refine ⟨?_, ?_, ?_⟩
  · rw [e1, update_status_device1, dequeAppend_getLast _ _ _ hpos]
    cases inp.ping1 <;> simp
  · rw [e2, update_status_device2, dequeAppend_getLast _ _ _ hpos]
    cases inp.ping2 <;> simp
  · rw [update_status_timestamps, dequeAppend_getLast _ _ _ hpos]

/-! ## The prober's retry loop -/

theorem pingLoop_succ_success (outcomes : Nat → AttemptOutcome) (a r : Nat)
    (h : outcomes a = .success) :
    pingLoop outcomes a (r + 1) = ⟨true, 1, 0⟩ := by
  simp [pingLoop, h]

theorem pingLoop_succ_fail (outcomes : Nat → AttemptOutcome) (a r : Nat)
    (h : outcomes a ≠ .success) :
    pingLoop outcomes a (r + 1) =
      ⟨(pingLoop outcomes (a + 1) r).result, (pingLoop outcomes (a + 1) r).attempts + 1,
        (pingLoop outcomes (a + 1) r).sleeps + 1⟩ := by
  cases hc : outcomes a with
  | success => exact absurd hc h
  | nonzeroExit => simp [pingLoop, hc]
  | timeoutExpired => simp [pingLoop, hc]
  | subprocessError => simp [pingLoop, hc]
  | otherException => simp [pingLoop, hc]

theorem pingLoop_succ_success_parts (outcomes : Nat → AttemptOutcome) (a r : Nat)
    (h : outcomes a = .success) :
    (pingLoop outcomes a (r + 1)).result = true ∧
    (pingLoop outcomes a (r + 1)).attempts = 1 ∧
    (pingLoop outcomes a (r + 1)).sleeps = 0 := by
  rw [pingLoop_succ_success outcomes a r h]
  exact ⟨rfl, rfl, rfl⟩

theorem pingLoop_succ_fail_parts (outcomes : Nat → AttemptOutcome) (a r : Nat)
    (h : outcomes a ≠ .success) :
    (pingLoop outcomes a (r + 1)).result = (pingLoop outcomes (a + 1) r).result ∧
    (pingLoop outcomes a (r + 1)).attempts = (pingLoop outcomes (a + 1) r).attempts + 1 ∧
    (pingLoop outcomes a (r + 1)).sleeps = (pingLoop outcomes (a + 1) r).sleeps + 1 := by
  rw [pingLoop_succ_fail outcomes a r h]
  exact ⟨rfl, rfl, rfl⟩

theorem pingLoop_spec (outcomes : Nat → AttemptOutcome) (r a : Nat) :
    (pingLoop outcomes a r).attempts ≤ r ∧
    ((pingLoop outcomes a r).result = true ↔
      ∃ k, k < r ∧ outcomes (a + k) = .success) ∧
    ((pingLoop outcomes a r).result = true →
      1 ≤ (pingLoop outcomes a r).attempts ∧
      outcomes (a + (pingLoop outcomes a r).attempts - 1) = .success ∧
      ∀ j, j < (pingLoop outcomes a r).attempts - 1 → outcomes (a + j) ≠ .success) ∧
    ((pingLoop outcomes a r).result = false → (pingLoop outcomes a r).attempts = r) := by
  induction r generalizing a with
  | zero => simp [pingLoop]
  | succ r ih =>
    by_cases hA : outcomes a = .success
    · obtain ⟨p1, p2, p3⟩ := pingLoop_succ_success_parts outcomes a r hA
      refine ⟨?_, ?_, ?_, ?_⟩
      · rw [p2]; omega
      · rw [p1]
        constructor
        · intro _
          exact ⟨0, by omega, by simpa using hA⟩
        · intro _
          rfl
      · intro _
        rw [p2]
        refine ⟨le_refl 1, by simpa using hA, ?_⟩
        intro j hj
        exact absurd hj (by omega)
      · rw [p1]
        intro hres
        exact Bool.noConfusion hres
    · obtain ⟨p1, p2, p3⟩ := pingLoop_succ_fail_parts outcomes a r hA
      obtain ⟨ih1, ih2, ih3, ih4⟩ := ih (a + 1)
      refine ⟨?_, ?_, ?_, ?_⟩
      · rw [p2]; omega
      · rw [p1, ih2]
        constructor
        · rintro ⟨k, hk, hs⟩
          refine ⟨k + 1, by omega, ?_⟩
          rw [show a + (k + 1) = a + 1 + k by omega]
          exact hs
        · rintro ⟨k, hk, hs⟩
          cases k with
          | zero => exact absurd (by simpa using hs) hA
          | succ k' =>
            refine ⟨k', by omega, ?_⟩
            rw [show a + 1 + k' = a + (k' + 1) by omega]
            exact hs
      · rw [p1, p2]
        intro hres
        obtain ⟨hge, hsucc, hbefore⟩ := ih3 hres
        refine ⟨by omega, ?_, ?_⟩
        · rw [show a + ((pingLoop outcomes (a + 1) r).attempts + 1) - 1 =
            a + 1 + (pingLoop outcomes (a + 1) r).attempts - 1 by omega]
          exact hsucc
        · intro j hj
          cases j with
          | zero => simpa using hA
          | succ j' =>
            rw [show a + (j' + 1) = a + 1 + j' by omega]
            exact hbefore j' (by omega)
      · rw [p1, p2]
        intro hres
        rw [ih4 hres]

/-- **C3**: `ping` makes at most `retries` attempts, returns `true` exactly
when some attempt within the budget succeeds — stopping at the first success —
and returns `false` only after making all `retries` attempts with none
succeeding. -/
theorem C3_ping_retry_policy (retries : Nat) (outcomes : Nat → AttemptOutcome) :
    (ping retries outcomes).attempts ≤ retries ∧
    ((ping retries outcomes).result = true ↔
      ∃ k, k < retries ∧ outcomes k = .success) ∧
    ((ping retries outcomes).result = true →
      outcomes ((ping retries outcomes).attempts - 1) = .success ∧
      ∀ j, j < (ping retries outcomes).attempts - 1 → outcomes j ≠ .success) ∧
    ((ping retries outcomes).result = false →
      (ping retries outcomes).attempts = retries ∧
      ∀ k, k < retries → outcomes k ≠ .success) := by
  obtain ⟨h1, h2, h3, h4⟩ := pingLoop_spec outcomes retries 0
  simp only [Nat.zero_add] at h1 h2 h3 h4
  refine ⟨h1, h2, ?_, ?_⟩
  · intro hres
    obtain ⟨_, hs, hb⟩ := h3 hres
    exact ⟨hs, hb⟩
  · intro hres
    refine ⟨h4 hres, ?_⟩
    intro k hk hs
    have h5 : (ping retries outcomes).result = true := h2.mpr ⟨k, hk, hs⟩
    rw [h5] at hres
    exact Bool.noConfusion hres

theorem pingLoopExc_ok (outcomes : Nat → AttemptOutcome) (r a : Nat) :
    pingLoopExc outcomes a r = .ok (pingLoop outcomes a r) := by
  induction r generalizing a with
  | zero => rfl
  | succ r ih =>
    cases hc : outcomes a with
    | success => simp [pingLoopExc, pingLoop, runAttempt, hc]
    | nonzeroExit => simp [pingLoopExc, pingLoop, runAttempt, hc, ih, Except.map]
    | timeoutExpired =>
      simp [pingLoopExc, pingLoop, runAttempt, handlerCatches, hc, ih, Except.map]
    | subprocessError =>
      simp [pingLoopExc, pingLoop, runAttempt, handlerCatches, hc, ih, Except.map]
    | otherException =>
      simp [pingLoopExc, pingLoop, runAttempt, handlerCatches, hc, ih, Except.map]

/-- **C5**: in the exception-transparent semantics, `ping` never propagates an
exception: every sequence of attempt outcomes yields an `.ok` result, the very
trace of the plain boolean `ping`, because each exception an attempt can raise
(`TimeoutExpired`, `SubprocessError`, any other `Exception`) is caught by one
of the handlers and converted into continuing toward a `false` return. -/
theorem C5_ping_never_throws (retries : Nat) (outcomes : Nat → AttemptOutcome) :
    pingExc retries outcomes = .ok (ping retries outcomes) :=
  pingLoopExc_ok outcomes retries 0

/-- **C9** (the code diverges from this claim): with the configured
`ping_retries = 2` and both attempts failing, `ping` performs a backoff sleep
after every failed attempt including the final one — 2 sleeps, where the
claim requires `maxRetries - 1 = 1`. `time.sleep(0.5)` at line 103 sits
inside the loop body after the `except` clauses, so it also runs after the
last attempt, contradicting the comment "Short delay between retries". -/
theorem C9_backoff_after_final_attempt :
    (ping ping_retries (fun _ => AttemptOutcome.timeoutExpired)).result = false ∧
    (ping ping_retries (fun _ => AttemptOutcome.timeoutExpired)).attempts = ping_retries ∧
    (ping ping_retries (fun _ => AttemptOutcome.timeoutExpired)).sleeps = ping_retries ∧
    ping_retries = 2 := by
  decide

/-! ## Transition log, change records and notifications -/

/-- **C1, counterexample**: the claim says no event is ever created at the
very first tick; but after a single tick whose probes yield `(true, false)`
the status-change log already holds one event, because tick 0 is compared
against the `__init__` defaults `(False, False)` (line 126). -/
theorem C1_first_tick_event_counterexample :
    (runTicks [⟨0, true, false, true⟩]).status_changes =
      [⟨0, false, true, false, false⟩] := by
  decide

/-- **C1, amended**: an event is appended to the status-change log at tick
`n` iff the composite tuple observed at tick `n` differs from the composite
tuple before it, where the composite before tick 0 is the initial default
`(false, false)` — so the first tick does create an event whenever its probes
yield anything other than `(false, false)`. -/
theorem C1_transition_iff_composite_change (inps : List TickInput) (n : Nat)
    (i : TickInput) (h : inps[n]? = some i) :
    compositeAt inps 0 = (false, false) ∧
    compositeAt inps (n + 1) = (i.ping1, i.ping2) ∧
    (stateAt inps (n + 1)).status_changes =
      (if (i.ping1, i.ping2) ≠ compositeAt inps n then
        dequeAppend status_changes_maxlen (stateAt inps n).status_changes
          ⟨i.time, (compositeAt inps n).1, i.ping1, (compositeAt inps n).2, i.ping2⟩
      else (stateAt inps n).status_changes) := by
  refine ⟨rfl, ?_, ?_⟩
  · simp only [compositeAt]
    rw [stateAt_succ inps n i h, (update_status_statuses (stateAt inps n) i).1,
      (update_status_statuses (stateAt inps n) i).2]
  · rw [stateAt_succ inps n i h, update_status_status_changes]
    rfl

/-- Witness for the amended C1 at the one-tick input of the counterexample. -/
theorem C1_transition_iff_composite_change_witness :
    (([⟨0, true, false, true⟩] : List TickInput)[0]? = some ⟨0, true, false, true⟩) ∧
    (compositeAt [⟨0, true, false, true⟩] 0 = (false, false) ∧
     compositeAt [⟨0, true, false, true⟩] 1 = (true, false) ∧
     (stateAt [⟨0, true, false, true⟩] 1).status_changes =
       (if ((true : Bool), (false : Bool)) ≠ compositeAt [⟨0, true, false, true⟩] 0 then
         dequeAppend status_changes_maxlen
           (stateAt [⟨0, true, false, true⟩] 0).status_changes
           ⟨0, (compositeAt [⟨0, true, false, true⟩] 0).1, true,
             (compositeAt [⟨0, true, false, true⟩] 0).2, false⟩
       else (stateAt [⟨0, true, false, true⟩] 0).status_changes)) :=
  ⟨rfl, C1_transition_iff_composite_change [⟨0, true, false, true⟩] 0
    ⟨0, true, false, true⟩ rfl⟩

/-- **C4, counterexample**: the claim says hosts whose flag did not change
are omitted from the event; but the recorded event of a tick where only
device 1 changed still contains device 2's pair (`old = new = false`) — the
dict at lines 127-131 always stores both devices. -/
theorem C4_unchanged_host_recorded_counterexample :
    (runTicks [⟨0, true, false, true⟩]).status_changes =
      [{ time := 0
         device1_old := false
         device1_new := true
         device2_old := false
         device2_new := false }] := by
  decide

/-- **C4, amended**: when the composite changed, the appended event records
the `(old, new)` pair of every host, unchanged hosts included; the set of
hosts rendered as changed is recovered only at display time, where
`show_status_window` shows exactly the hosts whose pair differs. -/
theorem C4_record_all_hosts_display_changed (s : MonitorState) (inp : TickInput)
    (hchg : (inp.ping1, inp.ping2) ≠ (s.device1_status, s.device2_status)) :
    (update_status s inp).1.status_changes =
      dequeAppend status_changes_maxlen s.status_changes
        ⟨inp.time, s.device1_status, inp.ping1, s.device2_status, inp.ping2⟩ ∧
    displayedInChange ⟨inp.time, s.device1_status, inp.ping1, s.device2_status, inp.ping2⟩ =
      (decide (s.device1_status ≠ inp.ping1), decide (s.device2_status ≠ inp.ping2)) := by
  constructor
  · rw [update_status_status_changes, if_pos hchg]
  · rfl

/-- Witness for the amended C4: first tick, device 1 comes up. -/
theorem C4_record_all_hosts_display_changed_witness :
    (((true : Bool), (false : Bool)) ≠
      (initialState.device1_status, initialState.device2_status)) ∧
    ((update_status initialState ⟨5, true, false, true⟩).1.status_changes =
      dequeAppend status_changes_maxlen initialState.status_changes
        ⟨5, false, true, false, false⟩ ∧
     displayedInChange ⟨5, false, true, false, false⟩ =
      (decide ((false : Bool) ≠ true), decide ((false : Bool) ≠ false))) :=
  ⟨by decide, C4_record_all_hosts_display_changed initialState ⟨5, true, false, true⟩
    (by decide)⟩

/-- **C6, counterexample**: the claim says a notification is emitted iff the
composite changed; but the whole notification block is guarded by
`if self.icon:` (line 134), so a tick processed while the tray icon is not
yet created emits nothing even though the composite changed. -/
theorem C6_no_icon_no_notification_counterexample :
    (update_status initialState ⟨0, true, false, false⟩).2 = none ∧
    (((true : Bool), (false : Bool)) ≠
      (initialState.device1_status, initialState.device2_status)) := by
  constructor
  · rfl
  · decide

/-- **C6, amended**: provided the tray icon object exists, a notification is
emitted during a tick iff the composite status tuple changed, and it carries
the title `"Network Status Change"` and, as message, the per-host status text
computed from the new statuses. -/
theorem C6_notification_iff_change (s : MonitorState) (inp : TickInput) :
    ((update_status s inp).2 ≠ none ↔
      inp.icon = true ∧ (inp.ping1, inp.ping2) ≠ (s.device1_status, s.device2_status)) ∧
    (∀ t m, (update_status s inp).2 = some (t, m) →
      t = "Network Status Change" ∧ m = get_status_text inp.ping1 inp.ping2) := by
  rw [update_status_snd]
  by_cases hI : inp.icon = true
  · by_cases hC : (inp.ping1, inp.ping2) ≠ (s.device1_status, s.device2_status)
    · constructor
      · simp [hI, hC]
      · intro t m hm
        rw [if_pos hI, if_pos hC] at hm
        simp only [Option.some.injEq, Prod.mk.injEq] at hm
        exact ⟨hm.1.symm, hm.2.symm⟩
    · constructor
      · simp [hI, hC]
      · intro t m hm
        rw [if_pos hI, if_neg hC] at hm
        exact Option.noConfusion hm
  · constructor
    · simp [hI]
    · intro t m hm
      rw [if_neg hI] at hm
      exact Option.noConfusion hm

end PingTray
